import Mathlib

set_option linter.unusedVariables false

/-!
Shallow embedding of astroquery/nasa_exoplanet_archive/nasa_exoplanet_archive.py.

The module defines one client class holding a single table slot, two cache
keys (one per filtered query kind) and a lazily loaded units mapping, with
three query methods: query_planet, query_star and
get_confirmed_planets_table.  External collaborators (download_file,
ascii.read, the bundled units json and the set of unit names the astropy
version implements) are modelled as an environment record, and every call
returns its result, the successor state and a log of the I/O effects it
performed.  CPython string identity matters here: the cache hit tests
compare the stored key with a freshly formatted string using the operator
`is`, so string objects are modelled as value plus allocation identity.
-/

namespace NasaExoplanetArchive

/-- Base endpoint of the confirmed planets table, the module constant
EXOPLANETS_CSV_URL. -/
def EXOPLANETS_CSV_URL : String :=
  "http://exoplanetarchive.ipac.caltech.edu/cgi-bin/nstedAPI/nph-nstedAPI?table=exoplanets"

/-- Bytes left unescaped by urllib.parse.quote with its default safe set:
ASCII letters, digits, underscore, dot, hyphen, tilde and the slash. -/
def isSafeByte (b : UInt8) : Bool :=
  (65 ≤ b.toNat && b.toNat ≤ 90) || (97 ≤ b.toNat && b.toNat ≤ 122) ||
  (48 ≤ b.toNat && b.toNat ≤ 57) ||
  b.toNat == 95 || b.toNat == 46 || b.toNat == 45 || b.toNat == 126 || b.toNat == 47

/-- Upper case hexadecimal digit of a value below sixteen. -/
def hexUpper (n : Nat) : Char :=
  if n < 10 then Char.ofNat (48 + n) else Char.ofNat (55 + n)

/-- Percent encoding of one byte, as urllib.parse.quote performs it. -/
def quoteByte (b : UInt8) : String :=
  if isSafeByte b then String.singleton (Char.ofNat b.toNat)
  else "%" ++ String.singleton (hexUpper (b.toNat / 16)) ++ String.singleton (hexUpper (b.toNat % 16))

/-- Embedding of urllib.parse.quote, applied to the UTF8 bytes of the input. -/
def quote (s : String) : String :=
  String.join (s.toUTF8.toList.map quoteByte)

/-- The single quote character, written by code point. -/
def squote : String := String.singleton (Char.ofNat 39)

/-- The quoted query key built at the top of query_planet and query_star:
the name is whitespace stripped and wrapped in single quotes. -/
def quotedName (name : String) : String := squote ++ name.trim ++ squote

/-- One cell of a parsed table: ascii.read yields numeric or textual cells. -/
inductive CellVal where
  | num (q : Rat)
  | txt (s : String)
deriving DecidableEq, Repr

/-- A value tagged with an astropy unit name, as produced by multiplying a
column by u.deg. -/
structure Quantity where
  value : CellVal
  unit : String
deriving DecidableEq, Repr

/-- One SkyCoord entry, holding a right ascension quantity and a declination
quantity. -/
structure SkyCoordVal where
  ra : Quantity
  dec : Quantity
deriving DecidableEq, Repr

/-- Payload of a table column: ordinary cells, or the SkyCoord mixin column. -/
inductive ColData where
  | cells (vs : List CellVal)
  | coords (vs : List SkyCoordVal)
deriving DecidableEq, Repr

/-- A column of the processed table: name, payload and an optional attached
unit name. -/
structure Column where
  name : String
  data : ColData
  unit : Option String
deriving DecidableEq, Repr

/-- A column as delivered by ascii.read, before postprocessing: no unit is
attached yet. -/
structure RawColumn where
  name : String
  values : List CellVal
deriving DecidableEq, Repr

/-- The table delivered by ascii.read. -/
structure RawTable where
  cols : List RawColumn
deriving DecidableEq, Repr

/-- The processed table handed back to the caller, QTable(exoplanets_table). -/
structure QTable where
  cols : List Column
deriving DecidableEq, Repr

/-- Lookup of a column by name, as indexing an astropy table with a column
name does. -/
def RawTable.find (t : RawTable) (name : String) : Option RawColumn :=
  t.cols.find? (fun c => c.name == name)

/-- SkyCoord(ra=ra*u.deg, dec=dec*u.deg): both columns are read as degree
valued angles, elementwise. -/
def makeSkyCoord (ra dec : List CellVal) : List SkyCoordVal :=
  (ra.zip dec).map (fun p =>
    { ra := { value := p.1, unit := "deg" }, dec := { value := p.2, unit := "deg" } })

/-- Assignment of a column into a table: replace an existing column of that
name, else append at the end. -/
def setCol (cols : List Column) (c : Column) : List Column :=
  if cols.any (fun d => d.name == c.name) then
    cols.map (fun d => if d.name == c.name then c else d)
  else cols ++ [c]

/-- The unit assignment loop: a column whose name is a key of param_units
gets that unit attached when hasattr(u, unit name) holds, else it is left
untouched; values are never converted. -/
def attachUnits (param_units : List (String × String)) (hasUnit : String → Bool)
    (c : Column) : Column :=
  match param_units.lookup c.name with
  | some uname => if hasUnit uname then { c with unit := some uname } else c
  | none => c

/-- Errors a query can raise: download failure, parse failure, or indexing a
missing column. -/
inductive QueryError where
  | fetchError (msg : String)
  | parseError (msg : String)
  | keyError (col : String)
deriving DecidableEq, Repr

/-- The postprocessing shared verbatim by the three query methods: add the
sky_coord mixin column built from the ra and dec columns, then run the unit
assignment loop over every column.  A missing ra or dec column surfaces as a
key error, as the table indexing would. -/
def buildTable (param_units : List (String × String)) (hasUnit : String → Bool)
    (raw : RawTable) : Except QueryError QTable :=
  match raw.find "ra" with
  | none => .error (.keyError "ra")
  | some raCol =>
    match raw.find "dec" with
    | none => .error (.keyError "dec")
    | some decCol =>
      let base : List Column :=
        raw.cols.map (fun rc => { name := rc.name, data := .cells rc.values, unit := none })
      let withSky := setCol base
        { name := "sky_coord", data := .coords (makeSkyCoord raCol.values decCol.values),
          unit := none }
      .ok { cols := withSky.map (attachUnits param_units hasUnit) }

/-- External collaborators of the client: the bundled units mapping, the
probe hasattr(u, name) for unit names the astropy version implements,
download_file and ascii.read.  download_file receives the url and the cache
flag and yields a file path or fails; ascii.read takes a path and yields a
raw table or fails. -/
structure Env where
  param_units : List (String × String)
  hasUnit : String → Bool
  download : String → Bool → Except String String
  parseFile : String → Except String RawTable

/-- Observable I/O of one call.  download_file is always handed the fixed
120 second timeout; show_progress does not alter control flow and is not
recorded. -/
inductive Effect where
  | download (url : String) (cache : Bool) (timeout : Nat)
  | parseFile (path : String)
deriving DecidableEq, Repr

/-- The fetch and parse sequence the three query methods share verbatim:
read table_path when one is given, else download the constructed url with a
120 second timeout; then ascii.read and the postprocessing of buildTable.
Failures propagate to the caller and nothing is retried. -/
def fetchAndBuild (env : Env) (url : String) (cache : Bool)
    (table_path : Option String) : Except QueryError QTable × List Effect :=
  match table_path with
  | none =>
    match env.download url cache with
    | .error e => (.error (.fetchError e), [.download url cache 120])
    | .ok path =>
      match env.parseFile path with
      | .error e => (.error (.parseError e), [.download url cache 120, .parseFile path])
      | .ok raw =>
        (buildTable env.param_units env.hasUnit raw,
         [.download url cache 120, .parseFile path])
  | some path =>
    match env.parseFile path with
    | .error e => (.error (.parseError e), [.parseFile path])
    | .ok raw => (buildTable env.param_units env.hasUnit raw, [.parseFile path])

/-- A Python string object: its text together with an allocation identity.
CPython `is` compares identities, and the quoted name built by str.format at
the top of query_planet and query_star is a fresh runtime object that is
never interned, hence identical to no previously stored object. -/
structure PyStr where
  id : Nat
  val : String
deriving DecidableEq, Repr

/-- CPython `a is b` on two string objects. -/
def pyIs (a b : PyStr) : Bool := a.id == b.id

/-- CPython `a is b` where a may be None: None is identical to no string. -/
def pyIsOpt : Option PyStr → PyStr → Bool
  | none, _ => false
  | some a, b => pyIs a b

/-- Mutable state of the client instance: the single table slot, the two
cache keys, and the allocation counter supplying fresh string identities. -/
structure ClientState where
  table : Option QTable
  cache_planet : Option PyStr
  cache_star : Option PyStr
  nextId : Nat
deriving Repr

/-- The state right after the constructor runs: every slot is None. -/
def initState : ClientState :=
  { table := none, cache_planet := none, cache_star := none, nextId := 0 }

/-- NasaExoplanetArchiveClass.query_planet.  The quoted name is a freshly
allocated string; the cache hit test is the literal conjunction
(table is not None) and (cache_planet is planet_name) and cache; on a miss
the constructed url filters on pl_name and the select clause is appended
when all_columns is set. -/
def query_planet (env : Env) (st : ClientState) (planet_name : String)
    (cache show_progress : Bool) (table_path : Option String)
    (all_columns : Bool) : Except QueryError QTable × ClientState × List Effect :=
  let pname : PyStr := { id := st.nextId, val := quotedName planet_name }
  let st1 : ClientState := { st with nextId := st.nextId + 1 }
  let url0 : String := EXOPLANETS_CSV_URL ++ "&where=pl_name=" ++ quote pname.val
  if st1.table.isSome && pyIsOpt st1.cache_planet pname && cache then
    (.ok (st1.table.getD { cols := [] }), st1, [])
  else
    let url := if all_columns then url0 ++ "&select=*" else url0
    match fetchAndBuild env url cache table_path with
    | (.ok t, effs) =>
      (.ok t, { st1 with table := some t, cache_planet := some pname }, effs)
    | (.error e, effs) => (.error e, st1, effs)

/-- NasaExoplanetArchiveClass.query_star: identical to query_planet except
that the filter field is pl_hostname and the key compared and stored is
cache_star. -/
def query_star (env : Env) (st : ClientState) (host_name : String)
    (cache show_progress : Bool) (table_path : Option String)
    (all_columns : Bool) : Except QueryError QTable × ClientState × List Effect :=
  let hname : PyStr := { id := st.nextId, val := quotedName host_name }
  let st1 : ClientState := { st with nextId := st.nextId + 1 }
  let url0 : String := EXOPLANETS_CSV_URL ++ "&where=pl_hostname=" ++ quote hname.val
  if st1.table.isSome && pyIsOpt st1.cache_star hname && cache then
    (.ok (st1.table.getD { cols := [] }), st1, [])
  else
    let url := if all_columns then url0 ++ "&select=*" else url0
    match fetchAndBuild env url cache table_path with
    | (.ok t, effs) =>
      (.ok t, { st1 with table := some t, cache_star := some hname }, effs)
    | (.error e, effs) => (.error e, st1, effs)

/-- NasaExoplanetArchiveClass.get_confirmed_planets_table: the cache check
tests presence of a table only, comparing no key and ignoring the cache
flag; on a miss the unfiltered url is fetched and only the table slot is
written. -/
def get_confirmed_planets_table (env : Env) (st : ClientState)
    (table_path : Option String) (all_columns cache show_progress : Bool) :
    Except QueryError QTable × ClientState × List Effect :=
  match st.table with
  | some t => (.ok t, st, [])
  | none =>
    let url := if all_columns then EXOPLANETS_CSV_URL ++ "&select=*" else EXOPLANETS_CSV_URL
    match fetchAndBuild env url cache table_path with
    | (.ok t, effs) => (.ok t, { st with table := some t }, effs)
    | (.error e, effs) => (.error e, st, effs)

/-- Well formedness of a client state: every stored cache key was allocated
before the current counter.  The constructor establishes it, every method
preserves it, and it makes the freshly formatted key of a call distinct as
an object from both stored keys. -/
def ClientState.WF (st : ClientState) : Prop :=
  (∀ k, st.cache_planet = some k → k.id < st.nextId) ∧
  (∀ k, st.cache_star = some k → k.id < st.nextId)

/-- The url query_planet constructs for a given input name and column mode,
written out for use in statements. -/
def planetUrl (planet_name : String) (all_columns : Bool) : String :=
  let url0 := EXOPLANETS_CSV_URL ++ "&where=pl_name=" ++ quote (quotedName planet_name)
  if all_columns then url0 ++ "&select=*" else url0

/-- The url query_star constructs for a given input name and column mode. -/
def starUrl (host_name : String) (all_columns : Bool) : String :=
  let url0 := EXOPLANETS_CSV_URL ++ "&where=pl_hostname=" ++ quote (quotedName host_name)
  if all_columns then url0 ++ "&select=*" else url0

/-- Recognizer for download effects. -/
def Effect.isDownload : Effect → Bool
  | .download _ _ _ => true
  | .parseFile _ => false

/-- Number of download attempts recorded in an effect log. -/
def countDownloads (effs : List Effect) : Nat :=
  (effs.filter Effect.isDownload).length

/-- One row raw table holding the Kepler-7 b record, as a local file or the
filtered endpoint would parse to. -/
def rawKepler : RawTable :=
  { cols := [ { name := "pl_name", values := [.txt "Kepler-7 b"] },
              { name := "ra", values := [.num 290] },
              { name := "dec", values := [.num 44] } ] }

/-- Two row raw table, as the unfiltered endpoint would parse to. -/
def rawAll : RawTable :=
  { cols := [ { name := "pl_name", values := [.txt "Kepler-7 b", .txt "HD 189733 b"] },
              { name := "ra", values := [.num 290, .num 300] },
              { name := "dec", values := [.num 44, .num 22] } ] }

/-- Concrete environment of the closed runs: the unfiltered endpoint
downloads to the file all.csv holding the two row table, any other url
downloads to one.csv holding the one row table, and the local file
local.csv also holds the one row table. -/
def envLocal : Env :=
  { param_units := [],
    hasUnit := fun _ => false,
    download := fun url _ => if url == EXOPLANETS_CSV_URL then .ok "all.csv" else .ok "one.csv",
    parseFile := fun p =>
      if p == "all.csv" then .ok rawAll
      else if p == "one.csv" then .ok rawKepler
      else if p == "local.csv" then .ok rawKepler
      else .error "missing" }

/-- Environment in which every download fails, for the error runs. -/
def envFail : Env :=
  { param_units := [],
    hasUnit := fun _ => false,
    download := fun _ _ => .error "timeout",
    parseFile := fun _ => .error "nofile" }

/-- Run of get_confirmed_planets_table on the fresh client in the concrete
environment: it downloads and caches the two row table. -/
def runAll : Except QueryError QTable × ClientState × List Effect :=
  get_confirmed_planets_table envLocal initState none false true true

/-- The table runAll leaves in the cache slot. -/
def tAll : QTable := (runAll.2.1.table).getD { cols := [] }

/-- First query_planet run on the fresh client against the fixed local
file. -/
def runP1 : Except QueryError QTable × ClientState × List Effect :=
  query_planet envLocal initState "Kepler-7 b" true true (some "local.csv") false

/-- The table runP1 returns and caches. -/
def tOne : QTable := (runP1.1).toOption.getD { cols := [] }

/-- A freshly allocated string object is identical to no stored key whose
identity precedes the counter. -/
theorem pyIsOpt_fresh (o : Option PyStr) (v : String) (n : Nat)
    (h : ∀ k, o = some k → k.id < n) : pyIsOpt o { id := n, val := v } = false := by
  cases o with
  | none => rfl
  | some k =>
    have hk := h k rfl
    simp [pyIsOpt, pyIs]
    omega

/-- The constructor state is well formed. -/
theorem initState_WF : initState.WF := by
  constructor <;> intro k hk <;> simp [initState] at hk

/-- The fetch and parse sequence always records at least one effect. -/
theorem fetchAndBuild_effects_ne_nil (env : Env) (url : String) (cache : Bool)
    (tp : Option String) : (fetchAndBuild env url cache tp).2 ≠ [] := by
  unfold fetchAndBuild
  cases tp with
  | none =>
    cases h : env.download url cache with
    | error e => simp
    | ok p => cases hp : env.parseFile p <;> simp [hp]
  | some p => cases hp : env.parseFile p <;> simp [hp]

/-- Without a local table path, the first recorded effect is the download of
the given url with the cache flag and the fixed 120 second timeout. -/
theorem fetchAndBuild_none_head (env : Env) (url : String) (cache : Bool) :
    ((fetchAndBuild env url cache none).2).head? = some (.download url cache 120) := by
  unfold fetchAndBuild
  cases h : env.download url cache with
  | error e => simp
  | ok p => cases hp : env.parseFile p <;> simp [hp]

/-- No call of the fetch and parse sequence downloads more than once. -/
theorem fetchAndBuild_download_le_one (env : Env) (url : String) (cache : Bool)
    (tp : Option String) : countDownloads (fetchAndBuild env url cache tp).2 ≤ 1 := by
  unfold fetchAndBuild
  cases tp with
  | none =>
    cases h : env.download url cache with
    | error e => simp [countDownloads, Effect.isDownload]
    | ok p =>
      cases hp : env.parseFile p <;> simp [hp, countDownloads, Effect.isDownload]
  | some p =>
    cases hp : env.parseFile p <;> simp [hp, countDownloads, Effect.isDownload]

/-- Every download effect the fetch and parse sequence records carries the
constructed url, the cache flag of the call and the timeout 120. -/
theorem fetchAndBuild_download_mem (env : Env) (url : String) (cache : Bool)
    (tp : Option String) (u : String) (cb : Bool) (tmo : Nat)
    (h : Effect.download u cb tmo ∈ (fetchAndBuild env url cache tp).2) :
    u = url ∧ cb = cache ∧ tmo = 120 := by
  unfold fetchAndBuild at h
  cases tp with
  | none =>
    cases hd : env.download url cache with
    | error e =>
      simp [hd] at h
      exact h
    | ok p =>
      cases hp : env.parseFile p with
      | error e =>
        simp [hd, hp] at h
        exact h
      | ok raw =>
        simp [hd, hp] at h
        exact h
  | some p =>
    cases hp : env.parseFile p with
    | error e => simp [hp] at h
    | ok raw => simp [hp] at h

/-- query_planet never writes the star cache key. -/
theorem query_planet_cache_star_frame (env : Env) (st : ClientState) (pn : String)
    (c sp : Bool) (tp : Option String) (ac : Bool) :
    ((query_planet env st pn c sp tp ac).2.1).cache_star = st.cache_star := by
  simp only [query_planet]
  split
  · rfl
  · split <;> rfl

/-- query_star never writes the planet cache key. -/
theorem query_star_cache_planet_frame (env : Env) (st : ClientState) (hn : String)
    (c sp : Bool) (tp : Option String) (ac : Bool) :
    ((query_star env st hn c sp tp ac).2.1).cache_planet = st.cache_planet := by
  simp only [query_star]
  split
  · rfl
  · split <;> rfl

/-- get_confirmed_planets_table writes neither cache key. -/
theorem get_confirmed_keys_frame (env : Env) (st : ClientState)
    (tp : Option String) (ac c sp : Bool) :
    ((get_confirmed_planets_table env st tp ac c sp).2.1).cache_planet = st.cache_planet ∧
    ((get_confirmed_planets_table env st tp ac c sp).2.1).cache_star = st.cache_star := by
  simp only [get_confirmed_planets_table]
  split
  · exact ⟨rfl, rfl⟩
  · split <;> exact ⟨rfl, rfl⟩

/-- query_planet preserves well formedness of the state. -/
theorem query_planet_WF (env : Env) (st : ClientState) (pn : String)
    (c sp : Bool) (tp : Option String) (ac : Bool) (h : st.WF) :
    ((query_planet env st pn c sp tp ac).2.1).WF := by
  simp only [query_planet]
  split
  · exact ⟨fun k hk => Nat.lt_succ_of_lt (h.1 k hk),
      fun k hk => Nat.lt_succ_of_lt (h.2 k hk)⟩
  · split
    · refine ⟨fun k hk => ?_, fun k hk => Nat.lt_succ_of_lt (h.2 k hk)⟩
      simp only [Option.some.injEq] at hk
      subst hk
      exact Nat.lt_succ_self _
    · exact ⟨fun k hk => Nat.lt_succ_of_lt (h.1 k hk),
        fun k hk => Nat.lt_succ_of_lt (h.2 k hk)⟩

/-- query_star preserves well formedness of the state. -/
theorem query_star_WF (env : Env) (st : ClientState) (hn : String)
    (c sp : Bool) (tp : Option String) (ac : Bool) (h : st.WF) :
    ((query_star env st hn c sp tp ac).2.1).WF := by
  simp only [query_star]
  split
  · exact ⟨fun k hk => Nat.lt_succ_of_lt (h.1 k hk),
      fun k hk => Nat.lt_succ_of_lt (h.2 k hk)⟩
  · split
    · refine ⟨fun k hk => Nat.lt_succ_of_lt (h.1 k hk), fun k hk => ?_⟩
      simp only [Option.some.injEq] at hk
      subst hk
      exact Nat.lt_succ_self _
    · exact ⟨fun k hk => Nat.lt_succ_of_lt (h.1 k hk),
        fun k hk => Nat.lt_succ_of_lt (h.2 k hk)⟩

/-- get_confirmed_planets_table preserves well formedness of the state. -/
theorem get_confirmed_WF (env : Env) (st : ClientState)
    (tp : Option String) (ac c sp : Bool) (h : st.WF) :
    ((get_confirmed_planets_table env st tp ac c sp).2.1).WF := by
  simp only [get_confirmed_planets_table]
  split
  · exact h
  · split
    · exact ⟨fun k hk => h.1 k hk, fun k hk => h.2 k hk⟩
    · exact h

/-- On a well formed state the cache hit test of query_planet is false: the
freshly formatted key is a new object. -/
theorem query_planet_no_hit (st : ClientState) (pn : String) (h : st.WF) :
    pyIsOpt st.cache_planet { id := st.nextId, val := quotedName pn } = false :=
  pyIsOpt_fresh _ _ _ h.1

/-- On a well formed state the cache hit test of query_star is false. -/
theorem query_star_no_hit (st : ClientState) (hn : String) (h : st.WF) :
    pyIsOpt st.cache_star { id := st.nextId, val := quotedName hn } = false :=
  pyIsOpt_fresh _ _ _ h.2

/-- On a well formed state query_planet always takes the fetch branch: its
result and effect log are those of the fetch and parse sequence on the
constructed url. -/
theorem query_planet_miss (env : Env) (st : ClientState) (pn : String)
    (c sp : Bool) (tp : Option String) (ac : Bool) (h : st.WF) :
    (query_planet env st pn c sp tp ac).1 = (fetchAndBuild env (planetUrl pn ac) c tp).1 ∧
    (query_planet env st pn c sp tp ac).2.2 = (fetchAndBuild env (planetUrl pn ac) c tp).2 := by
  have hno := query_planet_no_hit st pn h
  simp only [query_planet, hno, Bool.and_false, Bool.false_and, Bool.and_self,
    if_false, planetUrl]
  cases hf : fetchAndBuild env
      (if ac then EXOPLANETS_CSV_URL ++ "&where=pl_name=" ++ quote (quotedName pn) ++ "&select=*"
       else EXOPLANETS_CSV_URL ++ "&where=pl_name=" ++ quote (quotedName pn)) c tp with
  | mk r effs => cases r <;> simp

/-- On a well formed state query_star always takes the fetch branch. -/
theorem query_star_miss (env : Env) (st : ClientState) (hn : String)
    (c sp : Bool) (tp : Option String) (ac : Bool) (h : st.WF) :
    (query_star env st hn c sp tp ac).1 = (fetchAndBuild env (starUrl hn ac) c tp).1 ∧
    (query_star env st hn c sp tp ac).2.2 = (fetchAndBuild env (starUrl hn ac) c tp).2 := by
  have hno := query_star_no_hit st hn h
  simp only [query_star, hno, Bool.and_false, Bool.false_and, Bool.and_self,
    if_false, starUrl]
  cases hf : fetchAndBuild env
      (if ac then EXOPLANETS_CSV_URL ++ "&where=pl_hostname=" ++ quote (quotedName hn) ++ "&select=*"
       else EXOPLANETS_CSV_URL ++ "&where=pl_hostname=" ++ quote (quotedName hn)) c tp with
  | mk r effs => cases r <;> simp

/-- The state left by runAll is well formed. -/
theorem runAll_WF : (runAll.2.1).WF :=
  get_confirmed_WF envLocal initState none false true true initState_WF

/-- C1: calling query_planet twice with the same planet name, cache equal to
True and a fixed local table file path does not return the stored table on
the second call.  The cache key test compares the stored key with the
freshly formatted quoted name using the CPython operator `is`; the fresh
string is a new object, so the test is false and the second call runs the
read and parse sequence again instead of returning the table the first call
stored.  The first two conjuncts show the first call parsed and cached the
table, the third evaluates the identity test of the second call to false,
and the fourth shows the second call parsing the file again. -/
theorem query_planet_second_call_reparses :
    runP1.2.2 = [.parseFile "local.csv"] ∧
    (runP1.2.1).table = some tOne ∧
    pyIsOpt (runP1.2.1).cache_planet
      { id := (runP1.2.1).nextId, val := quotedName "Kepler-7 b" } = false ∧
    (query_planet envLocal runP1.2.1 "Kepler-7 b" true true (some "local.csv") false).2.2 =
      [.parseFile "local.csv"] :=
  ⟨rfl, rfl, rfl, rfl⟩

/-- C2 counterexample: after get_confirmed_planets_table has cached the two
row table, a query_planet call with cache equal to True does not return the
cached all planets table: it performs a fresh download and parse of the
filtered url and returns the one row table, which differs from the cached
one. -/
theorem getall_then_planet_counterexample :
    runAll.2.1.table = some tAll ∧
    (query_planet envLocal runAll.2.1 "Kepler-7 b" true true none false).2.2 =
      [.download (planetUrl "Kepler-7 b" false) true 120, .parseFile "one.csv"] ∧
    (query_planet envLocal runAll.2.1 "Kepler-7 b" true true none false).1 = .ok tOne ∧
    tOne ≠ tAll := by
  refine ⟨rfl, rfl, rfl, ?_⟩
  decide

/-- C2 amended: after a get_confirmed_planets_table call, a subsequent
query_planet call with cache equal to True does not hand back the cached
table: its planet cache key cannot match the freshly formatted name, so it
performs its own fetch of the filtered url and returns that result. -/
theorem query_planet_after_getall_fetches (env : Env) (st : ClientState)
    (pn : String) (tp tp2 : Option String) (ac ac2 c sp sp2 : Bool)
    (h : st.WF) :
    (query_planet env ((get_confirmed_planets_table env st tp ac c sp).2.1)
        pn true sp2 tp2 ac2).1 =
      (fetchAndBuild env (planetUrl pn ac2) true tp2).1 ∧
    (query_planet env ((get_confirmed_planets_table env st tp ac c sp).2.1)
        pn true sp2 tp2 ac2).2.2 =
      (fetchAndBuild env (planetUrl pn ac2) true tp2).2 ∧
    (query_planet env ((get_confirmed_planets_table env st tp ac c sp).2.1)
        pn true sp2 tp2 ac2).2.2 ≠ [] := by
  have hWF := get_confirmed_WF env st tp ac c sp h
  have hm := query_planet_miss env _ pn true sp2 tp2 ac2 hWF
  exact ⟨hm.1, hm.2, hm.2 ▸ fetchAndBuild_effects_ne_nil env _ true tp2⟩

/-- Witness for the amended C2 statement at the concrete run. -/
theorem query_planet_after_getall_fetches_witness :
    (query_planet envLocal ((get_confirmed_planets_table envLocal initState
        none false true true).2.1) "Kepler-7 b" true true none false).1 =
      (fetchAndBuild envLocal (planetUrl "Kepler-7 b" false) true none).1 ∧
    (query_planet envLocal ((get_confirmed_planets_table envLocal initState
        none false true true).2.1) "Kepler-7 b" true true none false).2.2 =
      (fetchAndBuild envLocal (planetUrl "Kepler-7 b" false) true none).2 ∧
    (query_planet envLocal ((get_confirmed_planets_table envLocal initState
        none false true true).2.1) "Kepler-7 b" true true none false).2.2 ≠ [] :=
  query_planet_after_getall_fetches envLocal initState "Kepler-7 b"
    none none false false true true true initState_WF

/-- C3 counterexample: with a table cached by the earlier run, calling
get_confirmed_planets_table with cache equal to False returns the cached
table with no fetch at all, although the claimed invariant demands a
re-fetch whenever caching is not requested. -/
theorem getall_cache_false_counterexample :
    runAll.2.1.table = some tAll ∧
    get_confirmed_planets_table envLocal runAll.2.1 none false false true =
      (.ok tAll, runAll.2.1, []) :=
  ⟨rfl, rfl⟩

/-- C3 amended: for query_planet and query_star a cache hit indeed requires
the stored key to be identical to the fresh key and caching to be
requested, and on a well formed state such a hit never happens, so both
calls always record I/O; get_confirmed_planets_table, however, returns any
cached table on presence alone, whatever the cache flag and the stored
keys. -/
theorem cache_hit_characterization (env : Env) (st : ClientState) (t : QTable)
    (pn hn : String) (c sp : Bool) (tp : Option String) (ac : Bool)
    (hWF : st.WF) (ht : st.table = some t) :
    (query_planet env st pn c sp tp ac).2.2 ≠ [] ∧
    (query_star env st hn c sp tp ac).2.2 ≠ [] ∧
    get_confirmed_planets_table env st tp ac c sp = (.ok t, st, []) := by
  refine ⟨?_, ?_, ?_⟩
  · rw [(query_planet_miss env st pn c sp tp ac hWF).2]
    exact fetchAndBuild_effects_ne_nil env _ c tp
  · rw [(query_star_miss env st hn c sp tp ac hWF).2]
    exact fetchAndBuild_effects_ne_nil env _ c tp
  · simp [get_confirmed_planets_table, ht]

/-- Witness for the amended C3 statement at the concrete cached state, with
caching not requested. -/
theorem cache_hit_characterization_witness :
    (query_planet envLocal runAll.2.1 "Kepler-7 b" false true none false).2.2 ≠ [] ∧
    (query_star envLocal runAll.2.1 "Kepler-7" false true none false).2.2 ≠ [] ∧
    get_confirmed_planets_table envLocal runAll.2.1 none false false true =
      (.ok tAll, runAll.2.1, []) :=
  cache_hit_characterization envLocal runAll.2.1 tAll "Kepler-7 b" "Kepler-7"
    false true none false runAll_WF rfl

/-- C4: whenever any table is cached on the client, whatever query produced
it, get_confirmed_planets_table returns it on presence alone: no key is
compared, no fetch is performed, the state is unchanged. -/
theorem get_confirmed_presence_hit (env : Env) (st : ClientState) (t : QTable)
    (tp : Option String) (ac c sp : Bool) (ht : st.table = some t) :
    get_confirmed_planets_table env st tp ac c sp = (.ok t, st, []) := by
  simp [get_confirmed_planets_table, ht]

/-- Witness for C4: the table cached by a planet query is returned by
get_confirmed_planets_table. -/
theorem get_confirmed_presence_hit_witness :
    get_confirmed_planets_table envLocal runP1.2.1 none false true true =
      (.ok tOne, runP1.2.1, []) :=
  get_confirmed_presence_hit envLocal runP1.2.1 tOne none false true true rfl

/-- C5: a query_planet call followed by a query_star call, both with cache
equal to True, never hands the planet cached table to the star query: the
star cache key cannot match the freshly formatted host name, so the star
call performs its own fetch of the host star url and returns that result. -/
theorem query_star_after_planet_fetches (env : Env) (st : ClientState)
    (pn hn : String) (sp sp2 : Bool) (tp tp2 : Option String) (ac ac2 : Bool)
    (h : st.WF) :
    (query_star env ((query_planet env st pn true sp tp ac).2.1)
        hn true sp2 tp2 ac2).1 =
      (fetchAndBuild env (starUrl hn ac2) true tp2).1 ∧
    (query_star env ((query_planet env st pn true sp tp ac).2.1)
        hn true sp2 tp2 ac2).2.2 =
      (fetchAndBuild env (starUrl hn ac2) true tp2).2 ∧
    (query_star env ((query_planet env st pn true sp tp ac).2.1)
        hn true sp2 tp2 ac2).2.2 ≠ [] := by
  have hWF1 := query_planet_WF env st pn true sp tp ac h
  have hm := query_star_miss env _ hn true sp2 tp2 ac2 hWF1
  exact ⟨hm.1, hm.2, hm.2 ▸ fetchAndBuild_effects_ne_nil env _ true tp2⟩

/-- Witness for C5 at the names Kepler-7 b and Kepler-7 on the fresh
client. -/
theorem query_star_after_planet_fetches_witness :
    (query_star envLocal ((query_planet envLocal initState "Kepler-7 b"
        true true none false).2.1) "Kepler-7" true true none false).1 =
      (fetchAndBuild envLocal (starUrl "Kepler-7" false) true none).1 ∧
    (query_star envLocal ((query_planet envLocal initState "Kepler-7 b"
        true true none false).2.1) "Kepler-7" true true none false).2.2 =
      (fetchAndBuild envLocal (starUrl "Kepler-7" false) true none).2 ∧
    (query_star envLocal ((query_planet envLocal initState "Kepler-7 b"
        true true none false).2.1) "Kepler-7" true true none false).2.2 ≠ [] :=
  query_star_after_planet_fetches envLocal initState "Kepler-7 b" "Kepler-7"
    true true none none false false initState_WF

/-- Appending the select all clause changes a string. -/
theorem append_select_ne (s : String) : s ++ "&select=*" ≠ s := by
  intro h
  have h2 := congrArg String.length h
  rw [String.length_append] at h2
  have h3 : "&select=*".length = 9 := rfl
  rw [h3] at h2
  omega

/-- C6: on the fresh client both filtered queries download a url that is the
base endpoint followed by a where clause whose value is the input name
whitespace trimmed, wrapped in single quotes and percent escaped, on the
field pl_name for query_planet and pl_hostname for query_star; requesting
all_columns appends a select all clause the default url does not carry, so
the two urls differ. -/
theorem query_url_construction (env : Env) (name : String) (c sp : Bool) :
    ((query_planet env initState name c sp none false).2.2).head? =
      some (.download (planetUrl name false) c 120) ∧
    ((query_planet env initState name c sp none true).2.2).head? =
      some (.download (planetUrl name true) c 120) ∧
    ((query_star env initState name c sp none false).2.2).head? =
      some (.download (starUrl name false) c 120) ∧
    ((query_star env initState name c sp none true).2.2).head? =
      some (.download (starUrl name true) c 120) ∧
    planetUrl name false =
      EXOPLANETS_CSV_URL ++ "&where=pl_name=" ++ quote (squote ++ name.trim ++ squote) ∧
    planetUrl name true = planetUrl name false ++ "&select=*" ∧
    starUrl name false =
      EXOPLANETS_CSV_URL ++ "&where=pl_hostname=" ++ quote (squote ++ name.trim ++ squote) ∧
    starUrl name true = starUrl name false ++ "&select=*" ∧
    planetUrl name true ≠ planetUrl name false ∧
    starUrl name true ≠ starUrl name false := by
  refine ⟨?_, ?_, ?_, ?_, ?_, ?_, ?_, ?_, ?_, ?_⟩
  · rw [(query_planet_miss env initState name c sp none false initState_WF).2]
    exact fetchAndBuild_none_head env _ c
  · rw [(query_planet_miss env initState name c sp none true initState_WF).2]
    exact fetchAndBuild_none_head env _ c
  · rw [(query_star_miss env initState name c sp none false initState_WF).2]
    exact fetchAndBuild_none_head env _ c
  · rw [(query_star_miss env initState name c sp none true initState_WF).2]
    exact fetchAndBuild_none_head env _ c
  · simp [planetUrl, quotedName]
  · simp [planetUrl]
  · simp [starUrl, quotedName]
  · simp [starUrl]
  · simp only [planetUrl, if_true, if_false]
    exact append_select_ne _
  · simp only [starUrl, if_true, if_false]
    exact append_select_ne _

/-- The unit assignment never renames a column. -/
theorem attachUnits_name (pu : List (String × String)) (hu : String → Bool)
    (c : Column) : (attachUnits pu hu c).name = c.name := by
  unfold attachUnits
  cases pu.lookup c.name with
  | none => rfl
  | some un => dsimp only; split <;> rfl

/-- The unit assignment never converts or replaces column values. -/
theorem attachUnits_data (pu : List (String × String)) (hu : String → Bool)
    (c : Column) : (attachUnits pu hu c).data = c.data := by
  unfold attachUnits
  cases pu.lookup c.name with
  | none => rfl
  | some un => dsimp only; split <;> rfl

/-- Unit attached to a column that starts without one: the mapped unit name
when the column name is a key and the unit is implemented, nothing in every
other case. -/
theorem attachUnits_unit_of_none (pu : List (String × String)) (hu : String → Bool)
    (c : Column) (h : c.unit = none) :
    (attachUnits pu hu c).unit =
      (match pu.lookup c.name with
       | some un => if hu un then some un else none
       | none => none) := by
  unfold attachUnits
  cases hl : pu.lookup c.name with
  | none => exact h
  | some un =>
    dsimp only
    split
    · rfl
    · exact h

/-- Closed form of the postprocessing when the ra and dec columns exist and
no raw column is already called sky_coord: every raw column is turned into a
cell column and run through the unit assignment, and the sky_coord column is
appended at the end and run through the same assignment. -/
theorem buildTable_eq (pu : List (String × String)) (hu : String → Bool)
    (raw : RawTable) (raCol decCol : RawColumn)
    (hra : raw.find "ra" = some raCol) (hdec : raw.find "dec" = some decCol)
    (hns : ∀ rc ∈ raw.cols, rc.name ≠ "sky_coord") :
    buildTable pu hu raw = .ok { cols :=
      ((raw.cols.map (fun rc =>
        ({ name := rc.name, data := .cells rc.values, unit := none } : Column))) ++
      [({ name := "sky_coord", data := .coords (makeSkyCoord raCol.values decCol.values), unit := none } : Column)]).map (attachUnits pu hu) } := by
  unfold buildTable
  rw [hra, hdec]
  dsimp only
  have hany : ((raw.cols.map (fun rc =>
      ({ name := rc.name, data := .cells rc.values, unit := none } : Column))).any
        (fun d => d.name == "sky_coord")) = false := by
    rw [List.any_eq_false]
    intro d hd
    obtain ⟨rc, hrc, rfl⟩ := List.mem_map.1 hd
    simpa using hns rc hrc
  unfold setCol
  rw [hany]
  rfl

/-- C7: in the table a query returns, every column of the parsed table whose
name is a key of the units mapping carries the mapped unit when that unit
name is implemented and no unit at all when it is not, the values are left
untouched in both cases, and the whole postprocessing succeeds without an
error. -/
theorem units_attached_iff_recognized (pu : List (String × String))
    (hu : String → Bool) (raw : RawTable) (raCol decCol : RawColumn)
    (hra : raw.find "ra" = some raCol) (hdec : raw.find "dec" = some decCol)
    (hns : ∀ rc ∈ raw.cols, rc.name ≠ "sky_coord") :
    ∃ t, buildTable pu hu raw = .ok t ∧
      ∀ rc ∈ raw.cols, ∃ c, c ∈ t.cols ∧
        c.name = rc.name ∧ c.data = .cells rc.values ∧
        c.unit = (match pu.lookup rc.name with
                  | some un => if hu un then some un else none
                  | none => none) := by
  refine ⟨_, buildTable_eq pu hu raw raCol decCol hra hdec hns, ?_⟩
  intro rc hrc
  refine ⟨attachUnits pu hu { name := rc.name, data := .cells rc.values, unit := none },
    List.mem_map_of_mem _ (List.mem_append_left _ (List.mem_map_of_mem _ hrc)),
    attachUnits_name pu hu _, attachUnits_data pu hu _, ?_⟩
  exact attachUnits_unit_of_none pu hu _ rfl

/-- Witness for C7: on the one row table with the mapping sending ra to the
implemented unit deg and dec to an unimplemented unit name, the returned
table tags the ra column with deg, leaves dec without a unit, raises no
error and converts no value. -/
theorem units_attached_iff_recognized_witness :
    buildTable [("ra", "deg"), ("dec", "bogus_unit")] (fun s => s == "deg") rawKepler =
      .ok { cols := [
        { name := "pl_name", data := .cells [.txt "Kepler-7 b"], unit := none },
        { name := "ra", data := .cells [.num 290], unit := some "deg" },
        { name := "dec", data := .cells [.num 44], unit := none },
        { name := "sky_coord",
          data := .coords [{ ra := { value := .num 290, unit := "deg" },
                             dec := { value := .num 44, unit := "deg" } }],
          unit := none } ] } := by
  have h := units_attached_iff_recognized [("ra", "deg"), ("dec", "bogus_unit")]
    (fun s => s == "deg") rawKepler { name := "ra", values := [.num 290] }
    { name := "dec", values := [.num 44] } rfl rfl (by decide)
  exact rfl

/-- C8: the returned table carries a derived sky coordinate column, appended
last under the name sky_coord, built elementwise from the ra and dec columns
with both read as degree valued angles; in particular the row with ra 290
and dec 44 yields the coordinate with right ascension 290 degrees and
declination 44 degrees. -/
theorem sky_coord_column_derived (pu : List (String × String))
    (hu : String → Bool) (raw : RawTable) (raCol decCol : RawColumn)
    (hra : raw.find "ra" = some raCol) (hdec : raw.find "dec" = some decCol)
    (hns : ∀ rc ∈ raw.cols, rc.name ≠ "sky_coord") :
    ∃ t c, buildTable pu hu raw = .ok t ∧
      t.cols.getLast? = some c ∧
      c.name = "sky_coord" ∧
      c.data = .coords (makeSkyCoord raCol.values decCol.values) ∧
      makeSkyCoord [.num 290] [.num 44] =
        [{ ra := { value := .num 290, unit := "deg" },
           dec := { value := .num 44, unit := "deg" } }] := by
  refine ⟨_, attachUnits pu hu
      { name := "sky_coord", data := .coords (makeSkyCoord raCol.values decCol.values),
        unit := none },
    buildTable_eq pu hu raw raCol decCol hra hdec hns, ?_,
    attachUnits_name pu hu _, attachUnits_data pu hu _, rfl⟩
  show ((_ ++ [_]).map (attachUnits pu hu)).getLast? = _
  rw [List.getLast?_map, List.getLast?_concat]
  rfl

/-- Witness for C8 on the one row table with an empty units mapping. -/
theorem sky_coord_column_derived_witness :
    buildTable [] (fun _ => false) rawKepler =
      .ok { cols := [
        { name := "pl_name", data := .cells [.txt "Kepler-7 b"], unit := none },
        { name := "ra", data := .cells [.num 290], unit := none },
        { name := "dec", data := .cells [.num 44], unit := none },
        { name := "sky_coord",
          data := .coords [{ ra := { value := .num 290, unit := "deg" },
                             dec := { value := .num 44, unit := "deg" } }],
          unit := none } ] } ∧
    makeSkyCoord [.num 290] [.num 44] =
      [{ ra := { value := .num 290, unit := "deg" },
         dec := { value := .num 44, unit := "deg" } }] := by
  have h := sky_coord_column_derived [] (fun _ => false) rawKepler
    { name := "ra", values := [.num 290] } { name := "dec", values := [.num 44] }
    rfl rfl (by decide)
  exact ⟨rfl, rfl⟩

/-- C9: a failing download propagates to the caller as a fetch error and a
failing parse as a parse error, with no table returned in either case; the
download is attempted at most once per call and always with the fixed 120
second timeout. -/
theorem download_errors_propagate (env : Env) (st : ClientState) (pn : String)
    (c sp ac : Bool) (msg p : String) (h : st.WF) :
    countDownloads (query_planet env st pn c sp none ac).2.2 ≤ 1 ∧
    (∀ u cb tmo, Effect.download u cb tmo ∈ (query_planet env st pn c sp none ac).2.2 →
      tmo = 120) ∧
    (env.download (planetUrl pn ac) c = .error msg →
      (query_planet env st pn c sp none ac).1 = .error (.fetchError msg)) ∧
    (env.download (planetUrl pn ac) c = .ok p → env.parseFile p = .error msg →
      (query_planet env st pn c sp none ac).1 = .error (.parseError msg)) := by
  have hm := query_planet_miss env st pn c sp none ac h
  refine ⟨?_, ?_, ?_, ?_⟩
  · rw [hm.2]
    exact fetchAndBuild_download_le_one env _ c none
  · intro u cb tmo hmem
    rw [hm.2] at hmem
    exact (fetchAndBuild_download_mem env _ c none u cb tmo hmem).2.2
  · intro hd
    rw [hm.1]
    unfold fetchAndBuild
    rw [hd]
  · intro hd hp
    rw [hm.1]
    simp [fetchAndBuild, hd, hp]

/-- Witness for C9 in the environment whose downloads all fail. -/
theorem download_errors_propagate_witness :
    (query_planet envFail initState "Kepler-7 b" true true none false).1 =
      .error (.fetchError "timeout") ∧
    countDownloads (query_planet envFail initState "Kepler-7 b" true true none false).2.2 ≤ 1 :=
  ⟨(download_errors_propagate envFail initState "Kepler-7 b" true true false "timeout" "p"
      initState_WF).2.2.1 rfl,
   (download_errors_propagate envFail initState "Kepler-7 b" true true false "timeout" "p"
      initState_WF).1⟩

/-- State query_planet leaves after a successful fetch: the new table and
the fresh planet key are stored, the star key survives. -/
theorem query_planet_ok_state (env : Env) (st : ClientState) (pn : String)
    (c sp : Bool) (tp : Option String) (ac : Bool) (t : QTable) (h : st.WF)
    (hok : (query_planet env st pn c sp tp ac).1 = .ok t) :
    (query_planet env st pn c sp tp ac).2.1 =
      { table := some t,
        cache_planet := some { id := st.nextId, val := quotedName pn },
        cache_star := st.cache_star,
        nextId := st.nextId + 1 } := by
  have hno := query_planet_no_hit st pn h
  simp only [query_planet, hno, Bool.and_false, Bool.false_and, if_false] at hok ⊢
  revert hok
  cases hf : fetchAndBuild env
      (if ac then EXOPLANETS_CSV_URL ++ "&where=pl_name=" ++ quote (quotedName pn) ++ "&select=*"
       else EXOPLANETS_CSV_URL ++ "&where=pl_name=" ++ quote (quotedName pn)) c tp with
  | mk r effs =>
    cases r with
    | ok t2 =>
      intro hok
      simp at hok
      subst hok
      rfl
    | error e =>
      intro hok
      simp at hok

/-- State query_star leaves after a successful fetch: the new table and the
fresh star key are stored, the planet key survives. -/
theorem query_star_ok_state (env : Env) (st : ClientState) (hn : String)
    (c sp : Bool) (tp : Option String) (ac : Bool) (t : QTable) (h : st.WF)
    (hok : (query_star env st hn c sp tp ac).1 = .ok t) :
    (query_star env st hn c sp tp ac).2.1 =
      { table := some t,
        cache_planet := st.cache_planet,
        cache_star := some { id := st.nextId, val := quotedName hn },
        nextId := st.nextId + 1 } := by
  have hno := query_star_no_hit st hn h
  simp only [query_star, hno, Bool.and_false, Bool.false_and, if_false] at hok ⊢
  revert hok
  cases hf : fetchAndBuild env
      (if ac then EXOPLANETS_CSV_URL ++ "&where=pl_hostname=" ++ quote (quotedName hn) ++ "&select=*"
       else EXOPLANETS_CSV_URL ++ "&where=pl_hostname=" ++ quote (quotedName hn)) c tp with
  | mk r effs =>
    cases r with
    | ok t2 =>
      intro hok
      simp at hok
      subst hok
      rfl
    | error e =>
      intro hok
      simp at hok

/-- State get_confirmed_planets_table leaves after a successful fetch from
an empty cache: only the table slot is written, both keys and the counter
survive. -/
theorem get_confirmed_ok_state (env : Env) (st : ClientState)
    (tp : Option String) (ac c sp : Bool) (t : QTable)
    (hn : st.table = none)
    (hok : (get_confirmed_planets_table env st tp ac c sp).1 = .ok t) :
    (get_confirmed_planets_table env st tp ac c sp).2.1 =
      { table := some t,
        cache_planet := st.cache_planet,
        cache_star := st.cache_star,
        nextId := st.nextId } := by
  simp only [get_confirmed_planets_table, hn] at hok ⊢
  revert hok
  cases hf : fetchAndBuild env
      (if ac then EXOPLANETS_CSV_URL ++ "&select=*" else EXOPLANETS_CSV_URL) c tp with
  | mk r effs =>
    cases r with
    | ok t2 =>
      intro hok
      simp at hok
      subst hok
      rfl
    | error e =>
      intro hok
      simp at hok

/-- C10: a query_planet fetch updates the table slot and the planet cache
key and leaves the star cache key exactly as it was; query_star is the
mirror image; get_confirmed_planets_table updates only the table slot and
leaves both keys as they were, so a stale key from an earlier query of the
other kind survives every such fetch. -/
theorem frame_effects (env : Env) (st : ClientState) (pn hn : String)
    (c sp : Bool) (tp : Option String) (ac : Bool) (t : QTable) (hWF : st.WF) :
    ((query_planet env st pn c sp tp ac).2.1).cache_star = st.cache_star ∧
    ((query_star env st hn c sp tp ac).2.1).cache_planet = st.cache_planet ∧
    ((get_confirmed_planets_table env st tp ac c sp).2.1).cache_planet = st.cache_planet ∧
    ((get_confirmed_planets_table env st tp ac c sp).2.1).cache_star = st.cache_star ∧
    ((query_planet env st pn c sp tp ac).1 = .ok t →
      (query_planet env st pn c sp tp ac).2.1 =
        { table := some t,
          cache_planet := some { id := st.nextId, val := quotedName pn },
          cache_star := st.cache_star, nextId := st.nextId + 1 }) ∧
    ((query_star env st hn c sp tp ac).1 = .ok t →
      (query_star env st hn c sp tp ac).2.1 =
        { table := some t,
          cache_planet := st.cache_planet,
          cache_star := some { id := st.nextId, val := quotedName hn },
          nextId := st.nextId + 1 }) ∧
    (st.table = none → (get_confirmed_planets_table env st tp ac c sp).1 = .ok t →
      (get_confirmed_planets_table env st tp ac c sp).2.1 =
        { table := some t, cache_planet := st.cache_planet,
          cache_star := st.cache_star, nextId := st.nextId }) :=
  ⟨query_planet_cache_star_frame env st pn c sp tp ac,
   query_star_cache_planet_frame env st hn c sp tp ac,
   (get_confirmed_keys_frame env st tp ac c sp).1,
   (get_confirmed_keys_frame env st tp ac c sp).2,
   fun hok => query_planet_ok_state env st pn c sp tp ac t hWF hok,
   fun hok => query_star_ok_state env st hn c sp tp ac t hWF hok,
   fun hn2 hok => get_confirmed_ok_state env st tp ac c sp t hn2 hok⟩

/-- Witness for C10 at the concrete runs on the fresh client. -/
theorem frame_effects_witness :
    ((query_planet envLocal initState "Kepler-7 b" true true none false).2.1).cache_star =
      initState.cache_star ∧
    ((query_star envLocal initState "Kepler-7" true true none false).2.1).cache_planet =
      initState.cache_planet ∧
    (query_planet envLocal initState "Kepler-7 b" true true none false).2.1 =
      { table := some tOne,
        cache_planet := some { id := initState.nextId, val := quotedName "Kepler-7 b" },
        cache_star := initState.cache_star, nextId := initState.nextId + 1 } ∧
    (get_confirmed_planets_table envLocal initState none false true true).2.1 =
      { table := some tAll, cache_planet := initState.cache_planet,
        cache_star := initState.cache_star, nextId := initState.nextId } :=
  ⟨(frame_effects envLocal initState "Kepler-7 b" "Kepler-7" true true none false tOne
      initState_WF).1,
   (frame_effects envLocal initState "Kepler-7 b" "Kepler-7" true true none false tOne
      initState_WF).2.1,
   (frame_effects envLocal initState "Kepler-7 b" "Kepler-7" true true none false tOne
      initState_WF).2.2.2.2.1 rfl,
   (frame_effects envLocal initState "Kepler-7 b" "Kepler-7" true true none false tAll
      initState_WF).2.2.2.2.2.2 rfl rfl⟩

end NasaExoplanetArchive
